import Mathlib

/-!
Shallow embedding of the wispd notification source
(crates/wisp-source/src/lib.rs and crates/wisp-types/src/lib.rs).

The record types mirror wisp-types.  The engine state (notification store,
id allocator, event channel) and the operations `notify`, `close`,
`invoke_action`, `expire_if_current`, `send_event`, `alloc_id`,
`effective_timeout_duration` and `schedule_timeout` mirror the
corresponding Rust functions of `WispSource`.

Machine integers are modelled as `Nat` with explicit saturation:
`u32::saturating_add(1)` becomes `min (n + 1) U32MAX` and
`u64::saturating_add(1)` becomes `min (n + 1) U64MAX`.

The `HashMap<u32, StoredNotification>` store is modelled as an
association list kept sorted by key with strictly increasing keys
(a canonical representative of the unordered map); `tokio::mpsc`
is modelled as an explicit bounded queue with a receiver-alive flag.
Timer *scheduling* is modelled by returning the scheduled request
`(id, generation, duration)` as data; timer *firing* is the separate
operation `expire_if_current`, exactly as in the source.  D-Bus signal
emission performs no engine-state change and is therefore not part of
the state.
-/

namespace Wispd

/-- Maximal value of a Rust `u32`. -/
def U32MAX : Nat := 4294967295

/-- Maximal value of a Rust `u64`. -/
def U64MAX : Nat := 18446744073709551615

/-- Notification urgency level (wisp-types `Urgency`). -/
inductive Urgency where
  | low
  | normal
  | critical
deriving DecidableEq, Repr

/-- Reason why a notification was closed (wisp-types `CloseReason`). -/
inductive CloseReason where
  | expired
  | dismissed
  | closedByCall
  | undefined
deriving DecidableEq, Repr

/-- An actionable button attached to a notification (wisp-types `NotificationAction`). -/
structure NotificationAction where
  key : String
  label : String
deriving DecidableEq, Repr

/-- Parsed hint fields (wisp-types `NotificationHints`); the `extra` map is
modelled as an association list. -/
structure NotificationHints where
  category : Option String
  desktop_entry : Option String
  transient : Option Bool
  extra : List (String × String)
deriving DecidableEq, Repr

/-- Normalized notification payload (wisp-types `Notification`);
`timeout_ms` is the raw `i32` requested timeout. -/
structure Notification where
  app_name : String
  app_icon : String
  summary : String
  body : String
  urgency : Urgency
  timeout_ms : Int
  actions : List NotificationAction
  hints : NotificationHints
deriving DecidableEq, Repr

/-- Lifecycle event emitted by the source (wisp-types `NotificationEvent`). -/
inductive NotificationEvent where
  | received (id : Nat) (notification : Notification)
  | closed (id : Nat) (reason : CloseReason)
  | actionInvoked (id : Nat) (action_key : String)
  | replaced (id : Nat) (previous : Notification) (current : Notification)
deriving DecidableEq, Repr

/-- Internal stored record (wisp-source `StoredNotification`);
`generation` is a `u64` counter. -/
structure StoredNotification where
  notification : Notification
  generation : Nat
deriving DecidableEq, Repr

/-- Errors produced by source runtime operations (wisp-source `SourceError`). -/
inductive SourceError where
  | eventChannelClosed
deriving DecidableEq, Repr

/-- Configuration for the source (wisp-source `SourceConfig`). -/
structure SourceConfig where
  capabilities : List String
  channel_capacity : Nat
  dbus_name : String
  dbus_path : String
  server_name : String
  server_vendor : String
  server_version : String
  spec_version : String
  default_timeout_ms : Int
deriving DecidableEq, Repr

/-- The `Default` impl of `SourceConfig`. -/
def SourceConfig.defaultConfig : SourceConfig :=
  { capabilities := [("body")]
    channel_capacity := 256
    dbus_name := ("org.freedesktop.Notifications")
    dbus_path := ("/org/freedesktop/Notifications")
    server_name := ("wispd")
    server_vendor := ("wispd")
    server_version := ("0.1.0")
    spec_version := ("1.2")
    default_timeout_ms := 5000 }

/-- The bounded mpsc event channel, modelled as an explicit queue with a
receiver-alive flag (`tokio::sync::mpsc::channel(cfg.channel_capacity)`). -/
structure EventChannel where
  receiverAlive : Bool
  queue : List NotificationEvent
  capacity : Nat
deriving DecidableEq, Repr

/-- Result of `Sender::try_send`. -/
inductive TrySendResult where
  | ok
  | full
  | closed
deriving DecidableEq, Repr

/-- `Sender::try_send`: fails with `Closed` when the receiver was dropped,
with `Full` when the bounded queue is at capacity, otherwise enqueues. -/
def trySend (ch : EventChannel) (e : NotificationEvent) : EventChannel × TrySendResult :=
  if ch.receiverAlive = false then
    (ch, TrySendResult.closed)
  else if ch.queue.length < ch.capacity then
    ({ ch with queue := ch.queue ++ [e] }, TrySendResult.ok)
  else
    (ch, TrySendResult.full)

/-- `WispSource::send_event` (lib.rs lines 382-395): a `Full` result drops
the event with a warning and still returns success; a `Closed` result is the
`EventChannelClosed` error. -/
def send_event (ch : EventChannel) (e : NotificationEvent) :
    EventChannel × Except SourceError Unit :=
  match trySend ch e with
  | (ch1, TrySendResult.ok) => (ch1, Except.ok ())
  | (ch1, TrySendResult.full) => (ch1, Except.ok ())
  | (ch1, TrySendResult.closed) => (ch1, Except.error SourceError.eventChannelClosed)

/-- The notification store: `HashMap<u32, StoredNotification>` modelled as an
association list sorted by key. -/
abbrev Store := List (Nat × StoredNotification)

/-- `HashMap::get`: first binding of the key, if any. -/
def lookup : Store → Nat → Option StoredNotification
  | [], _ => none
  | (k, v) :: rest, id => if k = id then some v else lookup rest id

/-- `HashMap::insert`: insert at the sorted position, replacing any existing
binding of the key. -/
def insertS : Store → Nat → StoredNotification → Store
  | [], id, v => [(id, v)]
  | (k, w) :: rest, id, v =>
    if id < k then (id, v) :: (k, w) :: rest
    else if id = k then (id, v) :: rest
    else (k, w) :: insertS rest id v

/-- `HashMap::remove`: drop the binding of the key, if any. -/
def removeS : Store → Nat → Store
  | [], _ => []
  | (k, w) :: rest, id => if k = id then rest else (k, w) :: removeS rest id

/-- Well-formedness of the store model: keys strictly increasing
(hence duplicate-free), the canonical form of the unordered hash map. -/
def SortedKeys (l : Store) : Prop :=
  List.Pairwise (fun a b => a.1 < b.1) l

instance : DecidablePred SortedKeys := by
  intro l
  unfold SortedKeys
  infer_instance

/-- Complete engine state of a `WispSource`: the notification store, the
id-allocator counter `next_id` (a `u32`, initially 1), and the event channel. -/
structure SourceState where
  store : Store
  next_id : Nat
  channel : EventChannel
deriving DecidableEq, Repr

/-- `WispSource::new`: empty store, `next_id = 1`, fresh channel of the
configured capacity with the receiver alive. -/
def initialState (cfg : SourceConfig) : SourceState :=
  { store := []
    next_id := 1
    channel := { receiverAlive := true, queue := [], capacity := cfg.channel_capacity } }

/-- `WispSource::alloc_id` (lib.rs lines 373-380): return the counter and
advance it by `u32::saturating_add(1)`. -/
def alloc_id (s : SourceState) : Nat × SourceState :=
  (s.next_id, { s with next_id := min (s.next_id + 1) U32MAX })

/-- A scheduled expiration-timer request: the spawned task captures
`(id, generation)` and sleeps for `duration_ms`. -/
structure TimerReq where
  id : Nat
  generation : Nat
  duration_ms : Nat
deriving DecidableEq, Repr

/-- `WispSource::effective_timeout_duration` (lib.rs lines 295-308):
`0` means no timer, negative means the configured default, positive is used
as-is; `u64::try_from` fails on a negative effective value and a zero
effective value yields no duration. -/
def effective_timeout_duration (cfg : SourceConfig) (requested_timeout_ms : Int) :
    Option Nat :=
  if requested_timeout_ms = 0 then none
  else
    let effective_ms :=
      if requested_timeout_ms < 0 then cfg.default_timeout_ms else requested_timeout_ms
    if effective_ms < 0 then none
    else if effective_ms.toNat = 0 then none
    else some effective_ms.toNat

/-- `WispSource::schedule_timeout` (lib.rs lines 281-293): spawn a timer task
capturing `(id, generation)` only when an effective duration exists. -/
def schedule_timeout (cfg : SourceConfig) (id : Nat) (generation : Nat)
    (requested_timeout_ms : Int) : Option TimerReq :=
  (effective_timeout_duration cfg requested_timeout_ms).map
    (fun d => { id := id, generation := generation, duration_ms := d })

/-- The in-place replacement branch of `WispSource::notify`
(lib.rs lines 169-186): swap the payload, advance the generation by
`u64::saturating_add(1)`, schedule a timer for the new generation, emit
`Replaced`, return `replaces_id` (or propagate the send error). -/
def notifyReplace (cfg : SourceConfig) (s : SourceState) (notification : Notification)
    (replaces_id : Nat) (entry : StoredNotification) :
    SourceState × Option TimerReq × Except SourceError Nat :=
  let previous := entry.notification
  let generation := min (entry.generation + 1) U64MAX
  let store := insertS s.store replaces_id { notification := notification, generation := generation }
  let timer := schedule_timeout cfg replaces_id generation notification.timeout_ms
  let sent := send_event s.channel (NotificationEvent.replaced replaces_id previous notification)
  ({ store := store, next_id := s.next_id, channel := sent.1 }, timer,
    sent.2.map (fun _ => replaces_id))

/-- The insertion branch of `WispSource::notify` (lib.rs lines 188-212):
allocate a fresh id, insert with generation 0, schedule a timer, emit
`Received`, return the new id (or propagate the send error). -/
def notifyInsert (cfg : SourceConfig) (s : SourceState) (notification : Notification) :
    SourceState × Option TimerReq × Except SourceError Nat :=
  let id := (alloc_id s).1
  let s1 := (alloc_id s).2
  let store := insertS s1.store id { notification := notification, generation := 0 }
  let timer := schedule_timeout cfg id 0 notification.timeout_ms
  let sent := send_event s1.channel (NotificationEvent.received id notification)
  ({ store := store, next_id := s1.next_id, channel := sent.1 }, timer,
    sent.2.map (fun _ => id))

/-- `WispSource::notify` (lib.rs lines 159-212): replace in place when
`replaces_id` is nonzero and present in the store, otherwise insert fresh. -/
def notify (cfg : SourceConfig) (s : SourceState) (notification : Notification)
    (replaces_id : Nat) : SourceState × Option TimerReq × Except SourceError Nat :=
  if replaces_id ≠ 0 then
    match lookup s.store replaces_id with
    | some entry => notifyReplace cfg s notification replaces_id entry
    | none => notifyInsert cfg s notification
  else notifyInsert cfg s notification

/-- `WispSource::send_closed` (lib.rs lines 326-333): emit the `Closed`
event on the channel; the subsequent bus-signal emission changes no
engine state. -/
def send_closed (s : SourceState) (id : Nat) (reason : CloseReason) :
    SourceState × Except SourceError Unit :=
  let sent := send_event s.channel (NotificationEvent.closed id reason)
  ({ s with channel := sent.1 }, sent.2)

/-- `WispSource::close` (lib.rs lines 217-225): remove the id from the
store; if nothing was removed return `false` without any event, otherwise
emit `Closed` and return `true` (or propagate the send error). -/
def close (s : SourceState) (id : Nat) (reason : CloseReason) :
    SourceState × Except SourceError Bool :=
  let removed := lookup s.store id
  let s1 := { s with store := removeS s.store id }
  match removed with
  | none => (s1, Except.ok false)
  | some _ =>
    let sent := send_closed s1 id reason
    (sent.1, sent.2.map (fun _ => true))

/-- `WispSource::invoke_action` (lib.rs lines 231-256): remove the id; if it
was absent return `false`; if the stored notification has no action with the
requested key, re-insert it unchanged and return `false`; otherwise emit
`ActionInvoked` and then `Closed{Dismissed}` and return `true`. -/
def invoke_action (s : SourceState) (id : Nat) (action_key : String) :
    SourceState × Except SourceError Bool :=
  match lookup s.store id with
  | none => (s, Except.ok false)
  | some stored =>
    let store1 := removeS s.store id
    if (stored.notification.actions.any (fun a => a.key == action_key)) = false then
      ({ s with store := insertS store1 id stored }, Except.ok false)
    else
      let s1 := { s with store := store1 }
      let sent1 := send_event s1.channel (NotificationEvent.actionInvoked id action_key)
      match sent1.2 with
      | Except.error e => ({ s1 with channel := sent1.1 }, Except.error e)
      | Except.ok _ =>
        let sent2 := send_closed { s1 with channel := sent1.1 } id CloseReason.dismissed
        (sent2.1, sent2.2.map (fun _ => true))

/-- `WispSource::expire_if_current` (lib.rs lines 310-324): on timer fire,
remove the id and emit `Closed{Expired}` only when it is still present with
exactly the captured generation; otherwise do nothing. -/
def expire_if_current (s : SourceState) (id : Nat) (generation : Nat) :
    SourceState × Except SourceError Unit :=
  let should_expire := (lookup s.store id).any (fun entry => entry.generation == generation)
  if should_expire = false then
    (s, Except.ok ())
  else
    send_closed { s with store := removeS s.store id } id CloseReason.expired

/-- Id-allocator invariant: the counter is in `[1, u32::MAX]` and every live
store key is at least 1 and below the counter unless the counter has
saturated. -/
def IdInv (s : SourceState) : Prop :=
  1 ≤ s.next_id ∧ s.next_id ≤ U32MAX ∧
    ∀ p ∈ s.store, 1 ≤ p.1 ∧ (p.1 < s.next_id ∨ s.next_id = U32MAX)

instance (s : SourceState) : Decidable (IdInv s) := by
  unfold IdInv
  infer_instance

/-! ### Concrete fixtures -/

/-- Empty hints. -/
def hints0 : NotificationHints :=
  { category := none, desktop_entry := none, transient := none, extra := [] }

/-- A plain notification with the given summary and requested timeout. -/
def mkNotif (summary : String) (timeout : Int) : Notification :=
  { app_name := ("test"), app_icon := (""), summary := summary, body := ("")
    urgency := Urgency.normal, timeout_ms := timeout, actions := [], hints := hints0 }

/-- The default configuration. -/
def cfg0 : SourceConfig := SourceConfig.defaultConfig

/-- A configuration whose event channel has capacity 0, so that every send
is dropped as `Full` and the queue stays empty; used for long runs. -/
def cfgTiny : SourceConfig := { SourceConfig.defaultConfig with channel_capacity := 0 }

/-- A live channel of capacity 256 with an empty queue. -/
def chA : EventChannel := { receiverAlive := true, queue := [], capacity := 256 }

/-- A channel whose receiver has been dropped. -/
def chDead : EventChannel := { receiverAlive := false, queue := [], capacity := 256 }

def nA : Notification := mkNotif ("a") (-1)

def nB : Notification := mkNotif ("b") (-1)

/-- A notification carrying one action with key "open". -/
def nAct : Notification :=
  { nA with actions := [{ key := ("open"), label := ("Open") }] }

/-- One live notification with id 1, generation 0, live channel. -/
def wsA : SourceState :=
  { store := [(1, { notification := nA, generation := 0 })], next_id := 2, channel := chA }

/-- One live notification with an action, live channel. -/
def wsAct : SourceState :=
  { store := [(1, { notification := nAct, generation := 0 })], next_id := 2, channel := chA }

/-- One live notification, receiver dropped. -/
def wsDead : SourceState :=
  { store := [(1, { notification := nA, generation := 0 })], next_id := 2, channel := chDead }

/-- One live notification whose generation has reached `u64::MAX`. -/
def satGenState : SourceState :=
  { store := [(1, { notification := nA, generation := U64MAX })], next_id := 2, channel := chA }

/-- A live channel already at capacity. -/
def chFull : EventChannel :=
  { receiverAlive := true
    queue := [NotificationEvent.closed 9 CloseReason.expired]
    capacity := 1 }

/-- A fresh notification used in long runs; `timeout_ms = 0` so no timer. -/
def notif0 : Notification := mkNotif ("first") 0

def notif1 : Notification := mkNotif ("second") 0

/-- The state after `k` fresh `notify(·, 0)` calls from the initial state
under `cfgTiny`: a run of creations witnessing allocator saturation. -/
def iterNew : Nat → SourceState
  | 0 => initialState cfgTiny
  | k + 1 => (notify cfgTiny (iterNew k) notif0 0).1

/-- The state after one creation and then `k` in-place replacements of id 1
under `cfgTiny`: a run witnessing generation saturation. -/
def iterRepl : Nat → SourceState
  | 0 => (notify cfgTiny (initialState cfgTiny) notif0 0).1
  | k + 1 => (notify cfgTiny (iterRepl k) notif0 1).1

/-! ### Store lemmas -/

theorem lookup_insertS_self (l : Store) (k : Nat) (v : StoredNotification) :
    lookup (insertS l k v) k = some v := by
  induction l with
  | nil => simp [insertS, lookup]
  | cons p rest ih =>
    obtain ⟨k0, w⟩ := p
    by_cases hlt : k < k0
    · simp [insertS, hlt, lookup]
    · by_cases heq : k = k0
      · simp [insertS, hlt, heq, lookup]
      · simp [insertS, hlt, heq, lookup, ih, Ne.symm heq]

theorem lookup_insertS_ne (l : Store) (k k' : Nat) (v : StoredNotification)
    (h : k' ≠ k) : lookup (insertS l k v) k' = lookup l k' := by
  induction l with
  | nil => simp [insertS, lookup, Ne.symm h]
  | cons p rest ih =>
    obtain ⟨k0, w⟩ := p
    by_cases hlt : k < k0
    · simp [insertS, hlt, lookup, Ne.symm h]
    · by_cases heq : k = k0
      · subst heq
        simp [insertS, hlt, lookup, Ne.symm h]
      · simp only [insertS, if_neg hlt, if_neg heq]
        by_cases hk0 : k0 = k'
        · simp [lookup, hk0]
        · simp [lookup, hk0, ih]

theorem lookup_removeS_ne (l : Store) (k k' : Nat) (h : k' ≠ k) :
    lookup (removeS l k) k' = lookup l k' := by
  induction l with
  | nil => simp [removeS]
  | cons p rest ih =>
    obtain ⟨k0, w⟩ := p
    by_cases heq : k0 = k
    · subst heq
      simp [removeS, lookup, Ne.symm h]
    · simp [removeS, heq, lookup, ih]

theorem removeS_of_lookup_none (l : Store) (k : Nat) (h : lookup l k = none) :
    removeS l k = l := by
  induction l with
  | nil => simp [removeS]
  | cons p rest ih =>
    obtain ⟨k0, w⟩ := p
    by_cases heq : k0 = k
    · simp [lookup, heq] at h
    · simp only [lookup, if_neg heq] at h
      simp [removeS, heq, ih h]

theorem lookup_none_of_all_lt (l : Store) (k : Nat) (h : ∀ p ∈ l, k < p.1) :
    lookup l k = none := by
  induction l with
  | nil => simp [lookup]
  | cons p rest ih =>
    obtain ⟨k0, w⟩ := p
    have hk := h (k0, w) (by simp)
    simp only [lookup]
    rw [if_neg (by omega)]
    exact ih (fun q hq => h q (by simp [hq]))

theorem lookup_removeS_self (l : Store) (k : Nat) (hs : SortedKeys l) :
    lookup (removeS l k) k = none := by
  induction l with
  | nil => simp [removeS, lookup]
  | cons p rest ih =>
    obtain ⟨k0, w⟩ := p
    have hall := (List.pairwise_cons.mp hs).1
    have hrest : SortedKeys rest := (List.pairwise_cons.mp hs).2
    by_cases heq : k0 = k
    · subst heq
      simp only [removeS, if_pos rfl]
      exact lookup_none_of_all_lt rest k0 hall
    · simp [removeS, heq, lookup, ih hrest]

theorem insertS_head (l : Store) (k : Nat) (v : StoredNotification)
    (h : ∀ p ∈ l, k < p.1) : insertS l k v = (k, v) :: l := by
  cases l with
  | nil => simp [insertS]
  | cons p rest =>
    obtain ⟨k0, w⟩ := p
    have := h (k0, w) (by simp)
    simp [insertS, this]

theorem insertS_removeS_cancel (l : Store) (k : Nat) (v : StoredNotification)
    (hs : SortedKeys l) (h : lookup l k = some v) :
    insertS (removeS l k) k v = l := by
  induction l with
  | nil => simp [lookup] at h
  | cons p rest ih =>
    obtain ⟨k0, w⟩ := p
    have hall := (List.pairwise_cons.mp hs).1
    have hrest : SortedKeys rest := (List.pairwise_cons.mp hs).2
    by_cases heq : k0 = k
    · subst heq
      simp only [lookup, if_pos rfl, if_true, Option.some.injEq] at h
      simp only [removeS, if_pos rfl, if_true]
      rw [insertS_head rest k0 v hall, h]
    · simp only [lookup, if_neg heq] at h
      have hk0k : ¬ k < k0 := by
        intro hlt
        have hnone : lookup rest k = none :=
          lookup_none_of_all_lt rest k (fun q hq => by
            have := hall q hq
            omega)
        simp [hnone] at h
      simp only [removeS, if_neg heq, insertS, if_neg hk0k, if_neg (Ne.symm heq)]
      rw [ih hrest h]

theorem lookup_mem (l : Store) (k : Nat) (v : StoredNotification)
    (h : lookup l k = some v) : (k, v) ∈ l := by
  induction l with
  | nil => simp [lookup] at h
  | cons p rest ih =>
    obtain ⟨k0, w⟩ := p
    by_cases heq : k0 = k
    · subst heq
      simp only [lookup, if_pos rfl, if_true, Option.some.injEq] at h
      simp [h]
    · simp only [lookup, if_neg heq] at h
      simp [ih h]

theorem mem_insertS (l : Store) (k k' : Nat) (v v' : StoredNotification)
    (h : (k', v') ∈ insertS l k v) : (k', v') ∈ l ∨ (k' = k ∧ v' = v) := by
  induction l with
  | nil =>
    simp [insertS] at h
    right
    exact ⟨h.1, h.2⟩
  | cons p rest ih =>
    obtain ⟨k0, w⟩ := p
    by_cases hlt : k < k0
    · simp only [insertS, if_pos hlt, List.mem_cons] at h
      rcases h with h | h | h
      · right
        exact ⟨congrArg Prod.fst h, congrArg Prod.snd h⟩
      · left
        simp [h]
      · left
        simp [h]
    · by_cases heq : k = k0
      · simp only [insertS, if_neg hlt, if_pos heq, List.mem_cons] at h
        rcases h with h | h
        · right
          exact ⟨congrArg Prod.fst h, congrArg Prod.snd h⟩
        · left
          simp [h]
      · simp only [insertS, if_neg hlt, if_neg heq, List.mem_cons] at h
        rcases h with h | h
        · left
          simp [h]
        · rcases ih h with h2 | h2
          · left
            simp [h2]
          · right
            exact h2

/-! ### Channel lemmas -/

theorem send_event_ok (ch : EventChannel) (e : NotificationEvent)
    (ha : ch.receiverAlive = true) (hr : ch.queue.length < ch.capacity) :
    send_event ch e = ({ ch with queue := ch.queue ++ [e] }, Except.ok ()) := by
  simp [send_event, trySend, ha, hr]

theorem send_event_full (ch : EventChannel) (e : NotificationEvent)
    (ha : ch.receiverAlive = true) (hr : ch.capacity ≤ ch.queue.length) :
    send_event ch e = (ch, Except.ok ()) := by
  simp [send_event, trySend, ha, Nat.not_lt.mpr hr]

theorem send_event_closed (ch : EventChannel) (e : NotificationEvent)
    (ha : ch.receiverAlive = false) :
    send_event ch e = (ch, Except.error SourceError.eventChannelClosed) := by
  simp [send_event, trySend, ha]

/-! ### Operation unfolding lemmas -/

theorem notify_of_replace (cfg : SourceConfig) (s : SourceState) (n : Notification)
    (rid : Nat) (entry : StoredNotification) (h0 : rid ≠ 0)
    (h : lookup s.store rid = some entry) :
    notify cfg s n rid = notifyReplace cfg s n rid entry := by
  simp [notify, h0, h]

theorem notify_of_insert (cfg : SourceConfig) (s : SourceState) (n : Notification)
    (rid : Nat) (h : rid = 0 ∨ lookup s.store rid = none) :
    notify cfg s n rid = notifyInsert cfg s n := by
  rcases h with h | h
  · simp [notify, h]
  · by_cases h0 : rid = 0
    · simp [notify, h0]
    · simp [notify, h0, h]

theorem notifyReplace_ok (cfg : SourceConfig) (s : SourceState) (n : Notification)
    (rid : Nat) (entry : StoredNotification)
    (halive : s.channel.receiverAlive = true)
    (hroom : s.channel.queue.length < s.channel.capacity) :
    notifyReplace cfg s n rid entry =
      ({ store := insertS s.store rid
            { notification := n, generation := min (entry.generation + 1) U64MAX }
         next_id := s.next_id
         channel := { s.channel with
            queue := s.channel.queue ++ [NotificationEvent.replaced rid entry.notification n] } },
       schedule_timeout cfg rid (min (entry.generation + 1) U64MAX) n.timeout_ms,
       Except.ok rid) := by
  simp [notifyReplace, send_event_ok _ _ halive hroom, Except.map]

theorem notifyReplace_closed (cfg : SourceConfig) (s : SourceState) (n : Notification)
    (rid : Nat) (entry : StoredNotification)
    (hdead : s.channel.receiverAlive = false) :
    notifyReplace cfg s n rid entry =
      ({ store := insertS s.store rid
            { notification := n, generation := min (entry.generation + 1) U64MAX }
         next_id := s.next_id
         channel := s.channel },
       schedule_timeout cfg rid (min (entry.generation + 1) U64MAX) n.timeout_ms,
       Except.error SourceError.eventChannelClosed) := by
  simp [notifyReplace, send_event_closed _ _ hdead, Except.map]

theorem notifyInsert_ok (cfg : SourceConfig) (s : SourceState) (n : Notification)
    (halive : s.channel.receiverAlive = true)
    (hroom : s.channel.queue.length < s.channel.capacity) :
    notifyInsert cfg s n =
      ({ store := insertS s.store s.next_id { notification := n, generation := 0 }
         next_id := min (s.next_id + 1) U32MAX
         channel := { s.channel with
            queue := s.channel.queue ++ [NotificationEvent.received s.next_id n] } },
       schedule_timeout cfg s.next_id 0 n.timeout_ms,
       Except.ok s.next_id) := by
  simp [notifyInsert, alloc_id, send_event_ok _ _ halive hroom, Except.map]

theorem notifyInsert_closed (cfg : SourceConfig) (s : SourceState) (n : Notification)
    (hdead : s.channel.receiverAlive = false) :
    notifyInsert cfg s n =
      ({ store := insertS s.store s.next_id { notification := n, generation := 0 }
         next_id := min (s.next_id + 1) U32MAX
         channel := s.channel },
       schedule_timeout cfg s.next_id 0 n.timeout_ms,
       Except.error SourceError.eventChannelClosed) := by
  simp [notifyInsert, alloc_id, send_event_closed _ _ hdead, Except.map]

theorem notifyInsert_full (cfg : SourceConfig) (s : SourceState) (n : Notification)
    (halive : s.channel.receiverAlive = true)
    (hfull : s.channel.capacity ≤ s.channel.queue.length) :
    notifyInsert cfg s n =
      ({ store := insertS s.store s.next_id { notification := n, generation := 0 }
         next_id := min (s.next_id + 1) U32MAX
         channel := s.channel },
       schedule_timeout cfg s.next_id 0 n.timeout_ms,
       Except.ok s.next_id) := by
  simp [notifyInsert, alloc_id, send_event_full _ _ halive hfull, Except.map]

theorem close_absent (s : SourceState) (id : Nat) (reason : CloseReason)
    (h : lookup s.store id = none) :
    close s id reason = (s, Except.ok false) := by
  simp [close, h, removeS_of_lookup_none s.store id h]

theorem effective_timeout_pos (cfg : SourceConfig) (t : Int) (d : Nat)
    (h : effective_timeout_duration cfg t = some d) : 0 < d := by
  simp only [effective_timeout_duration] at h
  split_ifs at h
  all_goals simp_all
  all_goals omega

/-! ### Claim theorems -/

/-- C1 (amended): on `notify(n, replaces_id)` with `replaces_id ≠ 0` present in
the store (live channel with queue room), the payload is replaced in place, the
generation advances by saturating increment — which is an increment by one
whenever the old generation is below `u64::MAX` — a
`Replaced{id, previous, current}` event is enqueued with the old payload as
`previous` and `n` as `current`, `replaces_id` is returned, and no other store
entry or the id counter changes. -/
theorem notify_replace_saturating_spec (cfg : SourceConfig) (s : SourceState)
    (n : Notification) (id : Nat) (entry : StoredNotification)
    (hid : id ≠ 0) (hlook : lookup s.store id = some entry)
    (halive : s.channel.receiverAlive = true)
    (hroom : s.channel.queue.length < s.channel.capacity) :
    (notify cfg s n id).2.2 = Except.ok id ∧
    lookup (notify cfg s n id).1.store id =
      some { notification := n, generation := min (entry.generation + 1) U64MAX } ∧
    (entry.generation < U64MAX → min (entry.generation + 1) U64MAX = entry.generation + 1) ∧
    (notify cfg s n id).1.channel.queue =
      s.channel.queue ++ [NotificationEvent.replaced id entry.notification n] ∧
    (∀ k, k ≠ id → lookup (notify cfg s n id).1.store k = lookup s.store k) ∧
    (notify cfg s n id).1.next_id = s.next_id := by
  rw [notify_of_replace cfg s n id entry hid hlook,
      notifyReplace_ok cfg s n id entry halive hroom]
  refine ⟨rfl, lookup_insertS_self _ _ _, ?_, rfl, ?_, rfl⟩
  · intro h
    simp only [U64MAX] at h ⊢
    omega
  · intro k hk
    exact lookup_insertS_ne _ _ _ _ hk

/-- C1 witness: a concrete in-place replacement of id 1. -/
theorem notify_replace_witness :
    lookup wsA.store 1 = some { notification := nA, generation := 0 } ∧
    wsA.channel.receiverAlive = true ∧
    wsA.channel.queue.length < wsA.channel.capacity ∧
    (notify cfg0 wsA nB 1).2.2 = Except.ok 1 ∧
    lookup (notify cfg0 wsA nB 1).1.store 1 =
      some { notification := nB, generation := min (0 + 1) U64MAX } ∧
    (notify cfg0 wsA nB 1).1.channel.queue =
      wsA.channel.queue ++ [NotificationEvent.replaced 1 nA nB] ∧
    lookup (notify cfg0 wsA nB 1).1.store 2 = lookup wsA.store 2 := by
  have h := notify_replace_saturating_spec cfg0 wsA nB 1
      { notification := nA, generation := 0 } (by decide) (by decide) (by decide) (by decide)
  exact ⟨by decide, by decide, by decide, h.1, h.2.1, h.2.2.2.1, h.2.2.2.2.1 2 (by decide)⟩

/-- C1 counterexample: in a store state whose entry for id 1 has generation
`u64::MAX`, replacing id 1 leaves the generation at `u64::MAX`; it is not
incremented by one, refuting the claim as stated for every store state. -/
theorem notify_replace_counterexample :
    lookup (notify cfg0 satGenState nB 1).1.store 1 =
      some { notification := nB, generation := U64MAX } ∧
    U64MAX ≠ U64MAX + 1 := by
  constructor
  · decide
  · decide

/-- C2: on `notify(n, replaces_id)` with `replaces_id = 0` or absent from the
store (live channel with queue room), the allocator's current id is assigned,
`n` is inserted with generation 0, a `Received{id, n}` event is enqueued, the
new id is returned — in particular a stale nonzero `replaces_id` becomes a
creation rather than an error — and no other store entry changes. -/
theorem notify_insert_spec (cfg : SourceConfig) (s : SourceState) (n : Notification)
    (rid : Nat) (hcase : rid = 0 ∨ lookup s.store rid = none)
    (halive : s.channel.receiverAlive = true)
    (hroom : s.channel.queue.length < s.channel.capacity) :
    (notify cfg s n rid).2.2 = Except.ok s.next_id ∧
    lookup (notify cfg s n rid).1.store s.next_id = some { notification := n, generation := 0 } ∧
    (notify cfg s n rid).1.channel.queue =
      s.channel.queue ++ [NotificationEvent.received s.next_id n] ∧
    (notify cfg s n rid).1.next_id = min (s.next_id + 1) U32MAX ∧
    (∀ k, k ≠ s.next_id → lookup (notify cfg s n rid).1.store k = lookup s.store k) := by
  rw [notify_of_insert cfg s n rid hcase, notifyInsert_ok cfg s n halive hroom]
  exact ⟨rfl, lookup_insertS_self _ _ _, rfl, rfl,
    fun k hk => lookup_insertS_ne _ _ _ _ hk⟩

/-- C2 witness: a stale `replaces_id = 7` is silently upgraded to a creation
with the freshly allocated id 2. -/
theorem notify_insert_witness :
    (7 = 0 ∨ lookup wsA.store 7 = none) ∧
    wsA.channel.receiverAlive = true ∧
    wsA.channel.queue.length < wsA.channel.capacity ∧
    (notify cfg0 wsA nB 7).2.2 = Except.ok 2 ∧
    lookup (notify cfg0 wsA nB 7).1.store 2 = some { notification := nB, generation := 0 } ∧
    (notify cfg0 wsA nB 7).1.channel.queue =
      wsA.channel.queue ++ [NotificationEvent.received 2 nB] ∧
    (notify cfg0 wsA nB 7).1.next_id = min (2 + 1) U32MAX := by
  have h := notify_insert_spec cfg0 wsA nB 7 (Or.inr (by decide)) (by decide) (by decide)
  exact ⟨Or.inr (by decide), by decide, by decide, h.1, h.2.1, h.2.2.1, h.2.2.2.1⟩

/-- C9: `send_event` returns the `EventChannelClosed` error when the receiver
has been dropped; when the receiver is attached but the queue is full the
event is dropped and success is returned; otherwise the event is enqueued
and success is returned. -/
theorem send_event_spec (ch : EventChannel) (e : NotificationEvent) :
    (ch.receiverAlive = false →
      send_event ch e = (ch, Except.error SourceError.eventChannelClosed)) ∧
    (ch.receiverAlive = true → ch.capacity ≤ ch.queue.length →
      send_event ch e = (ch, Except.ok ())) ∧
    (ch.receiverAlive = true → ch.queue.length < ch.capacity →
      send_event ch e = ({ ch with queue := ch.queue ++ [e] }, Except.ok ())) :=
  ⟨fun h => send_event_closed ch e h,
   fun ha hf => send_event_full ch e ha hf,
   fun ha hr => send_event_ok ch e ha hr⟩

/-- C9 witness: a dropped receiver yields the error, a full queue drops the
event with success, and a queue with room enqueues with success. -/
theorem send_event_witness :
    chDead.receiverAlive = false ∧
    send_event chDead (NotificationEvent.closed 1 CloseReason.undefined) =
      (chDead, Except.error SourceError.eventChannelClosed) ∧
    chFull.capacity ≤ chFull.queue.length ∧
    send_event chFull (NotificationEvent.closed 1 CloseReason.undefined) =
      (chFull, Except.ok ()) ∧
    send_event chA (NotificationEvent.closed 1 CloseReason.undefined) =
      ({ chA with queue := chA.queue ++ [NotificationEvent.closed 1 CloseReason.undefined] },
        Except.ok ()) := by
  have h1 := send_event_spec chDead (NotificationEvent.closed 1 CloseReason.undefined)
  have h2 := send_event_spec chFull (NotificationEvent.closed 1 CloseReason.undefined)
  have h3 := send_event_spec chA (NotificationEvent.closed 1 CloseReason.undefined)
  exact ⟨by decide, h1.1 (by decide), by decide, h2.2.1 (by decide) (by decide),
    h3.2.2 (by decide) (by decide)⟩

/-- C10: when the event receiver has been dropped, `close` on a live id still
removes the entry and only then returns the `EventChannelClosed` error, and
`notify` likewise leaves the insertion or in-place replacement in the store
while returning that error: the mutations are not rolled back. -/
theorem channel_closed_mutation_spec (s : SourceState)
    (hdead : s.channel.receiverAlive = false) :
    (∀ id reason entry, lookup s.store id = some entry →
      close s id reason =
        ({ s with store := removeS s.store id }, Except.error SourceError.eventChannelClosed)) ∧
    (∀ cfg n rid, (rid = 0 ∨ lookup s.store rid = none) →
      (notify cfg s n rid).1.store =
        insertS s.store s.next_id { notification := n, generation := 0 } ∧
      (notify cfg s n rid).2.2 = Except.error SourceError.eventChannelClosed) ∧
    (∀ cfg n rid entry, rid ≠ 0 → lookup s.store rid = some entry →
      (notify cfg s n rid).1.store =
        insertS s.store rid { notification := n, generation := min (entry.generation + 1) U64MAX } ∧
      (notify cfg s n rid).2.2 = Except.error SourceError.eventChannelClosed) := by
  refine ⟨?_, ?_, ?_⟩
  · intro id reason entry hlook
    simp [close, hlook, send_closed, send_event_closed _ _ hdead, Except.map]
  · intro cfg n rid hcase
    rw [notify_of_insert cfg s n rid hcase, notifyInsert_closed cfg s n hdead]
    exact ⟨rfl, rfl⟩
  · intro cfg n rid entry h0 hlook
    rw [notify_of_replace cfg s n rid entry h0 hlook, notifyReplace_closed cfg s n rid entry hdead]
    exact ⟨rfl, rfl⟩

/-- C10 witness: with the receiver dropped, closing live id 1 removes it and
returns the error, and a fresh notify leaves its insertion in the store. -/
theorem channel_closed_mutation_witness :
    wsDead.channel.receiverAlive = false ∧
    close wsDead 1 CloseReason.closedByCall =
      ({ wsDead with store := removeS wsDead.store 1 },
        Except.error SourceError.eventChannelClosed) ∧
    (notify cfg0 wsDead nB 0).1.store =
      insertS wsDead.store 2 { notification := nB, generation := 0 } ∧
    (notify cfg0 wsDead nB 0).2.2 = Except.error SourceError.eventChannelClosed := by
  have h := channel_closed_mutation_spec wsDead (by decide)
  have h2 := h.2.1 cfg0 nB 0 (Or.inl rfl)
  exact ⟨by decide, h.1 1 CloseReason.closedByCall { notification := nA, generation := 0 } (by decide),
    h2.1, h2.2⟩

/-- C3: `invoke_action(id, action_key)` returns false and leaves the store
completely unchanged when the id is absent or the notification's action list
has no action with that key; when the key is present it removes the entry and
enqueues `ActionInvoked{id, action_key}` strictly before `Closed{id, Dismissed}`
and returns true (stated for a well-formed store and a live channel with room
for both events). -/
theorem invoke_action_spec (s : SourceState) (id : Nat) (key : String)
    (hsorted : SortedKeys s.store)
    (halive : s.channel.receiverAlive = true)
    (hroom : s.channel.queue.length + 2 ≤ s.channel.capacity) :
    (lookup s.store id = none → invoke_action s id key = (s, Except.ok false)) ∧
    (∀ entry, lookup s.store id = some entry →
      (entry.notification.actions.any (fun a => a.key == key)) = false →
      invoke_action s id key = (s, Except.ok false)) ∧
    (∀ entry, lookup s.store id = some entry →
      (entry.notification.actions.any (fun a => a.key == key)) = true →
      (invoke_action s id key).2 = Except.ok true ∧
      (invoke_action s id key).1.store = removeS s.store id ∧
      (invoke_action s id key).1.channel.queue =
        s.channel.queue ++ [NotificationEvent.actionInvoked id key,
          NotificationEvent.closed id CloseReason.dismissed]) := by
  refine ⟨?_, ?_, ?_⟩
  · intro h
    simp [invoke_action, h]
  · intro entry hlook hkey
    simp [invoke_action, hlook, hkey,
      insertS_removeS_cancel s.store id entry hsorted hlook]
  · intro entry hlook hkey
    have hq1 : s.channel.queue.length < s.channel.capacity := by omega
    have h1 := send_event_ok s.channel (NotificationEvent.actionInvoked id key) halive hq1
    have h2 := send_event_ok
      { s.channel with queue := s.channel.queue ++ [NotificationEvent.actionInvoked id key] }
      (NotificationEvent.closed id CloseReason.dismissed) halive
      (by simp only [List.length_append, List.length_cons, List.length_nil]; omega)
    simp [invoke_action, hlook, hkey, send_closed, h1, h2, Except.map]

/-- C3 witness: invoking "open" on a notification that has it removes the
entry and enqueues ActionInvoked then Closed{Dismissed}; invoking it on a
notification with no actions is a fully observable no-op. -/
theorem invoke_action_witness :
    SortedKeys wsAct.store ∧
    wsAct.channel.queue.length + 2 ≤ wsAct.channel.capacity ∧
    lookup wsAct.store 1 = some { notification := nAct, generation := 0 } ∧
    (invoke_action wsAct 1 ("open")).2 = Except.ok true ∧
    (invoke_action wsAct 1 ("open")).1.store = removeS wsAct.store 1 ∧
    (invoke_action wsAct 1 ("open")).1.channel.queue =
      wsAct.channel.queue ++ [NotificationEvent.actionInvoked 1 ("open"),
        NotificationEvent.closed 1 CloseReason.dismissed] ∧
    invoke_action wsA 1 ("open") = (wsA, Except.ok false) := by
  have h := invoke_action_spec wsAct 1 ("open") (by decide) (by decide) (by decide)
  have g := invoke_action_spec wsA 1 ("open") (by decide) (by decide) (by decide)
  have h3 := h.2.2 { notification := nAct, generation := 0 } (by decide) (by decide)
  exact ⟨by decide, by decide, by decide, h3.1, h3.2.1, h3.2.2,
    g.2.1 { notification := nA, generation := 0 } (by decide) (by decide)⟩

/-- C4: `close(id, reason)` on an absent id returns false and emits no event;
on a live id it removes the entry, enqueues `Closed{id, reason}` and returns
true; a second `close` with no intervening notify returns false and changes
nothing (stated for a well-formed store and a live channel with room). -/
theorem close_spec (s : SourceState) (id : Nat) (reason : CloseReason)
    (hsorted : SortedKeys s.store)
    (halive : s.channel.receiverAlive = true)
    (hroom : s.channel.queue.length < s.channel.capacity) :
    (lookup s.store id = none → close s id reason = (s, Except.ok false)) ∧
    (∀ entry, lookup s.store id = some entry →
      (close s id reason).2 = Except.ok true ∧
      (close s id reason).1.store = removeS s.store id ∧
      (close s id reason).1.channel.queue =
        s.channel.queue ++ [NotificationEvent.closed id reason] ∧
      close (close s id reason).1 id reason = ((close s id reason).1, Except.ok false)) := by
  refine ⟨fun h => close_absent s id reason h, ?_⟩
  intro entry hlook
  have h1 := send_event_ok s.channel (NotificationEvent.closed id reason) halive hroom
  have hc : close s id reason =
      ({ store := removeS s.store id, next_id := s.next_id
         channel := { s.channel with
           queue := s.channel.queue ++ [NotificationEvent.closed id reason] } },
        Except.ok true) := by
    simp [close, hlook, send_closed, h1, Except.map]
  rw [hc]
  exact ⟨rfl, rfl, rfl,
    close_absent _ id reason (lookup_removeS_self s.store id hsorted)⟩

/-- C4 witness: closing live id 1 succeeds and enqueues Closed; an immediate
second close returns false and emits nothing. -/
theorem close_witness :
    SortedKeys wsA.store ∧
    lookup wsA.store 1 = some { notification := nA, generation := 0 } ∧
    wsA.channel.queue.length < wsA.channel.capacity ∧
    (close wsA 1 CloseReason.closedByCall).2 = Except.ok true ∧
    (close wsA 1 CloseReason.closedByCall).1.store = removeS wsA.store 1 ∧
    (close wsA 1 CloseReason.closedByCall).1.channel.queue =
      wsA.channel.queue ++ [NotificationEvent.closed 1 CloseReason.closedByCall] ∧
    close (close wsA 1 CloseReason.closedByCall).1 1 CloseReason.closedByCall =
      ((close wsA 1 CloseReason.closedByCall).1, Except.ok false) := by
  have h := close_spec wsA 1 CloseReason.closedByCall (by decide) (by decide) (by decide)
  have h2 := h.2 { notification := nA, generation := 0 } (by decide)
  exact ⟨by decide, by decide, by decide, h2.1, h2.2.1, h2.2.2.1, h2.2.2.2⟩

/-- C5: a timer fire carrying `(id, g)` removes the entry and enqueues
`Closed{id, Expired}` exactly when the store still holds `id` with generation
`g`; when the id is gone or its generation differs the fire is a complete
no-op (stated for a live channel with room). -/
theorem expire_if_current_spec (s : SourceState) (id g : Nat)
    (halive : s.channel.receiverAlive = true)
    (hroom : s.channel.queue.length < s.channel.capacity) :
    (∀ entry, lookup s.store id = some entry → entry.generation = g →
      (expire_if_current s id g).1.store = removeS s.store id ∧
      (expire_if_current s id g).1.channel.queue =
        s.channel.queue ++ [NotificationEvent.closed id CloseReason.expired] ∧
      (expire_if_current s id g).2 = Except.ok ()) ∧
    ((∀ entry, lookup s.store id = some entry → entry.generation ≠ g) →
      expire_if_current s id g = (s, Except.ok ())) := by
  constructor
  · intro entry hlook hgen
    have h1 := send_event_ok s.channel (NotificationEvent.closed id CloseReason.expired)
      halive hroom
    simp [expire_if_current, Option.any, hlook, hgen, send_closed, h1]
  · intro hno
    cases hl : lookup s.store id with
    | none => simp [expire_if_current, Option.any, hl]
    | some entry =>
      have hne := hno entry hl
      simp [expire_if_current, Option.any, hl, hne]

/-- C5 witness: firing the timer for (1, 0) on a store holding id 1 at
generation 0 expires it; firing a stale timer (1, 5) is a no-op. -/
theorem expire_if_current_witness :
    lookup wsA.store 1 = some { notification := nA, generation := 0 } ∧
    (expire_if_current wsA 1 0).1.store = removeS wsA.store 1 ∧
    (expire_if_current wsA 1 0).1.channel.queue =
      wsA.channel.queue ++ [NotificationEvent.closed 1 CloseReason.expired] ∧
    (expire_if_current wsA 1 0).2 = Except.ok () ∧
    expire_if_current wsA 1 5 = (wsA, Except.ok ()) := by
  have h := expire_if_current_spec wsA 1 0 (by decide) (by decide)
  have h5 := expire_if_current_spec wsA 1 5 (by decide) (by decide)
  have hs := h.1 { notification := nA, generation := 0 } (by decide) rfl
  refine ⟨by decide, hs.1, hs.2.1, hs.2.2, h5.2 ?_⟩
  intro entry hl
  rw [show lookup wsA.store 1 = some { notification := nA, generation := 0 } from by decide] at hl
  cases hl
  decide

/-- C6: the effective expiration timeout is none for `timeout_ms = 0`, the
configured `default_timeout_ms` (5000 in the default configuration) for
negative requests, and the request itself for positive requests; a timer is
scheduled only when the resulting value is positive. -/
theorem effective_timeout_spec (cfg : SourceConfig) (t : Int) :
    (t = 0 → effective_timeout_duration cfg t = none) ∧
    (t < 0 → effective_timeout_duration cfg t =
      (if 0 < cfg.default_timeout_ms then some cfg.default_timeout_ms.toNat else none)) ∧
    (0 < t → effective_timeout_duration cfg t = some t.toNat) ∧
    (∀ id gen tr, schedule_timeout cfg id gen t = some tr → 0 < tr.duration_ms) ∧
    SourceConfig.defaultConfig.default_timeout_ms = 5000 := by
  refine ⟨?_, ?_, ?_, ?_, rfl⟩
  · intro h
    simp [effective_timeout_duration, h]
  · intro ht
    have ht0 : ¬ t = 0 := by omega
    simp only [effective_timeout_duration, if_neg ht0, if_pos ht]
    by_cases hd : cfg.default_timeout_ms < 0
    · rw [if_pos hd, if_neg (by omega)]
    · rw [if_neg hd]
      by_cases hz : cfg.default_timeout_ms.toNat = 0
      · rw [if_pos hz, if_neg (by omega)]
      · rw [if_neg hz, if_pos (by omega)]
  · intro ht
    have ht0 : ¬ t = 0 := by omega
    have htn : ¬ t < 0 := by omega
    simp only [effective_timeout_duration, if_neg ht0, if_neg htn]
    rw [if_neg (by omega : ¬ t.toNat = 0)]
  · intro id gen tr h
    cases heff : effective_timeout_duration cfg t with
    | none => simp [schedule_timeout, heff] at h
    | some d =>
      have hd := effective_timeout_pos cfg t d heff
      simp only [schedule_timeout, heff, Option.map_some'] at h
      cases h
      exact hd

/-- C6 witness: timeout 0 never schedules, -1 maps to the default, 2500 is
used as-is, and a scheduled timer has a positive duration. -/
theorem effective_timeout_witness :
    effective_timeout_duration cfg0 0 = none ∧
    effective_timeout_duration cfg0 (-1) =
      (if 0 < cfg0.default_timeout_ms then some cfg0.default_timeout_ms.toNat else none) ∧
    effective_timeout_duration cfg0 2500 = some (2500 : Int).toNat ∧
    schedule_timeout cfg0 1 0 2500 = some { id := 1, generation := 0, duration_ms := 2500 } ∧
    0 < ({ id := 1, generation := 0, duration_ms := 2500 } : TimerReq).duration_ms := by
  have h0 := effective_timeout_spec cfg0 0
  have h1 := effective_timeout_spec cfg0 (-1)
  have h2 := effective_timeout_spec cfg0 2500
  exact ⟨h0.1 rfl, h1.2.1 (by decide), h2.2.2.1 (by decide), by decide,
    h2.2.2.2.1 1 0 { id := 1, generation := 0, duration_ms := 2500 } (by decide)⟩

/-! ### Closed forms for the saturation runs -/

theorem send_event_chTiny (e : NotificationEvent) :
    send_event ({ receiverAlive := true, queue := [], capacity := 0 } : EventChannel) e =
      ({ receiverAlive := true, queue := [], capacity := 0 }, Except.ok ()) := by
  simp [send_event, trySend]

theorem iterNew_state (k : Nat) :
    (iterNew k).channel = { receiverAlive := true, queue := [], capacity := 0 } ∧
    (iterNew k).next_id = min (1 + k) U32MAX := by
  induction k with
  | zero => exact ⟨rfl, by decide⟩
  | succ k ih =>
    have hstep : iterNew (k + 1) = (notify cfgTiny (iterNew k) notif0 0).1 := rfl
    rw [hstep, notify_of_insert cfgTiny (iterNew k) notif0 0 (Or.inl rfl)]
    constructor
    · simp [notifyInsert, alloc_id, ih.1, send_event_chTiny]
    · simp only [notifyInsert, alloc_id]
      rw [ih.2]
      simp only [U32MAX]
      omega

theorem iterNew_succ_store (k : Nat) :
    (iterNew (k + 1)).store =
      insertS (iterNew k).store (iterNew k).next_id
        { notification := notif0, generation := 0 } := by
  have hstep : iterNew (k + 1) = (notify cfgTiny (iterNew k) notif0 0).1 := rfl
  rw [hstep, notify_of_insert cfgTiny (iterNew k) notif0 0 (Or.inl rfl)]
  simp [notifyInsert, alloc_id]

theorem iterRepl_eq (k : Nat) :
    iterRepl k =
      { store := [(1, { notification := notif0, generation := min k U64MAX })]
        next_id := 2
        channel := { receiverAlive := true, queue := [], capacity := 0 } } := by
  induction k with
  | zero =>
    show (notify cfgTiny (initialState cfgTiny) notif0 0).1 = _
    rw [notify_of_insert cfgTiny (initialState cfgTiny) notif0 0 (Or.inl rfl)]
    have h2 : min (1 + 1) U32MAX = 2 := by
      simp only [U32MAX]
      omega
    have h0 : min 0 U64MAX = 0 := by
      simp only [U64MAX]
      omega
    simp [notifyInsert, alloc_id, initialState, cfgTiny, send_event_chTiny, insertS, h2, h0]
  | succ k ih =>
    have hlk : lookup (iterRepl k).store 1 =
        some { notification := notif0, generation := min k U64MAX } := by
      rw [ih]
      simp [lookup]
    have hstep : iterRepl (k + 1) = (notify cfgTiny (iterRepl k) notif0 1).1 := rfl
    rw [hstep, notify_of_replace cfgTiny (iterRepl k) notif0 1
      { notification := notif0, generation := min k U64MAX } (by decide) hlk, ih]
    have hfull := send_event_full
      ({ receiverAlive := true, queue := [], capacity := 0 } : EventChannel)
      (NotificationEvent.replaced 1 notif0 notif0) rfl (by decide)
    simp [notifyReplace, insertS, hfull]
    simp only [U64MAX]
    omega

/-- C7 (amended): ids are assigned by saturating increment from 1 and id 0 is
never allocated; as long as the allocator has not saturated
(`next_id < u32::MAX`), the id handed to a notify creation is not live in the
store, so no live record is overwritten.  The invariant `IdInv` holds
initially and is preserved by every `notify`. -/
theorem id_allocation_spec (cfg : SourceConfig) (s : SourceState) (n : Notification)
    (rid : Nat) (hinv : IdInv s) :
    IdInv (initialState cfg) ∧
    IdInv (notify cfg s n rid).1 ∧
    ((rid = 0 ∨ lookup s.store rid = none) →
      (alloc_id s).1 ≠ 0 ∧
      (notify cfg s n rid).1.next_id = min (s.next_id + 1) U32MAX ∧
      (s.next_id < U32MAX → lookup s.store (alloc_id s).1 = none) ∧
      (notify cfg s n rid).1.store =
        insertS s.store (alloc_id s).1 { notification := n, generation := 0 }) := by
  obtain ⟨h1, h2, h3⟩ := hinv
  have hinsSt : (notifyInsert cfg s n).1.store =
      insertS s.store s.next_id { notification := n, generation := 0 } := by
    simp [notifyInsert, alloc_id]
  have hinsNx : (notifyInsert cfg s n).1.next_id = min (s.next_id + 1) U32MAX := by
    simp [notifyInsert, alloc_id]
  refine ⟨?_, ?_, ?_⟩
  · refine ⟨Nat.le_refl 1, ?_, ?_⟩
    · show (1 : Nat) ≤ U32MAX
      decide
    · intro p hp
      simp [initialState] at hp
  · by_cases h0 : rid = 0
    · rw [notify_of_insert cfg s n rid (Or.inl h0)]
      refine ⟨?_, ?_, ?_⟩
      · rw [hinsNx]
        simp only [U32MAX] at *
        omega
      · rw [hinsNx]
        exact min_le_right _ _
      · intro p hp
        rw [hinsSt] at hp
        rw [hinsNx]
        rcases mem_insertS _ _ _ _ _ hp with hp | ⟨hpk, hpv⟩
        · have hb := h3 p hp
          simp only [U32MAX] at *
          omega
        · rw [hpk]
          simp only [U32MAX] at *
          omega
    · cases hl : lookup s.store rid with
      | none =>
        rw [notify_of_insert cfg s n rid (Or.inr hl)]
        refine ⟨?_, ?_, ?_⟩
        · rw [hinsNx]
          simp only [U32MAX] at *
          omega
        · rw [hinsNx]
          exact min_le_right _ _
        · intro p hp
          rw [hinsSt] at hp
          rw [hinsNx]
          rcases mem_insertS _ _ _ _ _ hp with hp | ⟨hpk, hpv⟩
          · have hb := h3 p hp
            simp only [U32MAX] at *
            omega
          · rw [hpk]
            simp only [U32MAX] at *
            omega
      | some entry =>
        rw [notify_of_replace cfg s n rid entry h0 hl]
        have hst : (notifyReplace cfg s n rid entry).1.store =
            insertS s.store rid
              { notification := n, generation := min (entry.generation + 1) U64MAX } := by
          simp [notifyReplace]
        have hnx : (notifyReplace cfg s n rid entry).1.next_id = s.next_id := by
          simp [notifyReplace]
        refine ⟨by rw [hnx]; exact h1, by rw [hnx]; exact h2, ?_⟩
        intro p hp
        rw [hst] at hp
        rw [hnx]
        rcases mem_insertS _ _ _ _ _ hp with hp | ⟨hpk, hpv⟩
        · exact h3 p hp
        · have hold := h3 (rid, entry) (lookup_mem _ _ _ hl)
          rw [hpk]
          exact hold
  · intro hcase
    rw [notify_of_insert cfg s n rid hcase]
    refine ⟨by simp [alloc_id]; omega, hinsNx, ?_, hinsSt⟩
    intro hlt
    cases hlk : lookup s.store s.next_id with
    | none => exact hlk
    | some e =>
      exfalso
      have hb := h3 (s.next_id, e) (lookup_mem _ _ _ hlk)
      simp only [U32MAX] at *
      omega

/-- C7 witness: from a concrete unsaturated state, the invariant is preserved
and the freshly allocated id 2 is nonzero and not live. -/
theorem id_allocation_witness :
    IdInv wsA ∧
    IdInv (notify cfg0 wsA nB 0).1 ∧
    (alloc_id wsA).1 ≠ 0 ∧
    (notify cfg0 wsA nB 0).1.next_id = min (wsA.next_id + 1) U32MAX ∧
    wsA.next_id < U32MAX ∧
    lookup wsA.store (alloc_id wsA).1 = none := by
  have h := id_allocation_spec cfg0 wsA nB 0 (by decide)
  have h3 := h.2.2 (Or.inl rfl)
  exact ⟨by decide, h.2.1, h3.1, h3.2.1, by decide, h3.2.2.1 (by decide)⟩

/-- C7 counterexample: after `u32::MAX` creations from the initial state (a
reachable state), the allocator has saturated: id `u32::MAX` is live in the
store, yet the next notify creation allocates `u32::MAX` again and overwrites
the live record, refuting the claim as stated. -/
theorem notifyInsert_result_chTiny (cfg : SourceConfig) (s : SourceState)
    (n : Notification)
    (hch : s.channel = { receiverAlive := true, queue := [], capacity := 0 }) :
    (notifyInsert cfg s n).2.2 = Except.ok s.next_id := by
  simp [notifyInsert, alloc_id, hch, send_event_chTiny, Except.map]

/-- C7 counterexample: after `u32::MAX` creations from the initial state (a
reachable state), the allocator has saturated: id `u32::MAX` is live in the
store, yet the next notify creation allocates `u32::MAX` again and overwrites
the live record, refuting the claim as stated. -/
theorem id_allocation_counterexample :
    lookup (iterNew U32MAX).store U32MAX =
      some { notification := notif0, generation := 0 } ∧
    (notify cfgTiny (iterNew U32MAX) notif1 0).2.2 = Except.ok U32MAX ∧
    lookup (notify cfgTiny (iterNew U32MAX) notif1 0).1.store U32MAX =
      some { notification := notif1, generation := 0 } := by
  have hprev : (iterNew (U32MAX - 1)).next_id = U32MAX := by
    rw [(iterNew_state (U32MAX - 1)).2]
    simp only [U32MAX]
    omega
  have hM : U32MAX - 1 + 1 = U32MAX := by
    simp only [U32MAX]
  have hcurNx : (iterNew U32MAX).next_id = U32MAX := by
    rw [(iterNew_state U32MAX).2]
    simp only [U32MAX]
    omega
  have hcurCh := (iterNew_state U32MAX).1
  refine ⟨?_, ?_, ?_⟩
  · have hins := iterNew_succ_store (U32MAX - 1)
    rw [hM] at hins
    rw [hins, hprev]
    exact lookup_insertS_self _ _ _
  · rw [notify_of_insert cfgTiny (iterNew U32MAX) notif1 0 (Or.inl rfl),
      notifyInsert_result_chTiny cfgTiny (iterNew U32MAX) notif1 hcurCh, hcurNx]
  · rw [notify_of_insert cfgTiny (iterNew U32MAX) notif1 0 (Or.inl rfl)]
    have hst : (notifyInsert cfgTiny (iterNew U32MAX) notif1).1.store =
        insertS (iterNew U32MAX).store (iterNew U32MAX).next_id
          { notification := notif1, generation := 0 } := by
      simp [notifyInsert, alloc_id]
    rw [hst, hcurNx]
    exact lookup_insertS_self _ _ _

/-- C8 (amended): a notification is inserted with generation 0; an in-place
replace advances the generation by saturating increment, which is strictly
larger than the old generation whenever that is below `u64::MAX`, and is
never 0; the generation is 0 only for a fresh insertion. -/
theorem generation_monotonic_spec (cfg : SourceConfig) (s : SourceState)
    (n : Notification) (rid : Nat) :
    ((rid = 0 ∨ lookup s.store rid = none) →
      lookup (notify cfg s n rid).1.store (alloc_id s).1 =
        some { notification := n, generation := 0 }) ∧
    (∀ entry, rid ≠ 0 → lookup s.store rid = some entry →
      lookup (notify cfg s n rid).1.store rid =
        some { notification := n, generation := min (entry.generation + 1) U64MAX } ∧
      (entry.generation < U64MAX →
        entry.generation < min (entry.generation + 1) U64MAX) ∧
      min (entry.generation + 1) U64MAX ≠ 0) := by
  constructor
  · intro hcase
    rw [notify_of_insert cfg s n rid hcase]
    have hst : (notifyInsert cfg s n).1.store =
        insertS s.store s.next_id { notification := n, generation := 0 } := by
      simp [notifyInsert, alloc_id]
    rw [show (alloc_id s).1 = s.next_id from rfl, hst]
    exact lookup_insertS_self _ _ _
  · intro entry h0 hl
    rw [notify_of_replace cfg s n rid entry h0 hl]
    have hst : (notifyReplace cfg s n rid entry).1.store =
        insertS s.store rid
          { notification := n, generation := min (entry.generation + 1) U64MAX } := by
      simp [notifyReplace]
    refine ⟨by rw [hst]; exact lookup_insertS_self _ _ _, ?_, ?_⟩
    · intro hlt
      simp only [U64MAX] at *
      omega
    · simp only [U64MAX]
      omega

/-- C8 witness: inserting gives generation 0 and replacing id 1 advances its
generation strictly from 0 to 1. -/
theorem generation_monotonic_witness :
    lookup wsA.store 1 = some { notification := nA, generation := 0 } ∧
    lookup (notify cfg0 wsA nB 1).1.store 1 =
      some { notification := nB, generation := min (0 + 1) U64MAX } ∧
    0 < min (0 + 1) U64MAX ∧
    lookup (notify cfg0 wsA nB 0).1.store (alloc_id wsA).1 =
      some { notification := nB, generation := 0 } := by
  have h := generation_monotonic_spec cfg0 wsA nB 1
  have h0 := generation_monotonic_spec cfg0 wsA nB 0
  have hr := h.2 { notification := nA, generation := 0 } (by decide) (by decide)
  exact ⟨by decide, hr.1, hr.2.1 (by decide), h0.1 (Or.inl rfl)⟩

/-- C8 counterexample: after one creation and `u64::MAX` in-place replaces of
id 1 (a reachable lifetime of id 1), the generation has saturated at
`u64::MAX`; a further replace leaves it at `u64::MAX`, so the generation is
not strictly increasing over the whole lifetime, refuting the claim as
stated. -/
theorem generation_monotonic_counterexample :
    lookup (iterRepl U64MAX).store 1 =
      some { notification := notif0, generation := U64MAX } ∧
    lookup (notify cfgTiny (iterRepl U64MAX) notif1 1).1.store 1 =
      some { notification := notif1, generation := U64MAX } ∧
    ¬ U64MAX < U64MAX := by
  have h := iterRepl_eq U64MAX
  rw [min_self U64MAX] at h
  refine ⟨by rw [h]; simp [lookup], ?_, Nat.lt_irrefl U64MAX⟩
  rw [h]
  decide

end Wispd
